import Mathlib

/-!
Shallow embedding of the ai-health-profiler analysis pipeline
(src/ocr.js, src/guardrails.js, src/factors.js, src/risk.js,
src/recommendations.js) together with proofs of the specification's
testable properties.

JS numbers are modelled as `Int` (integer-valued fields and scores) or
`ℚ` (decimal-valued fields and confidence arithmetic); JS strings as
`String`; absent object fields as `none`.  The regular-expression
detectors of ocr.js are embedded as explicit leftmost-match scanners with
ordered alternation and greedy/lazy quantifier backtracking, following
the JS regex semantics of the patterns in the source.
-/

namespace HealthProfiler

/-! ## Data model -/

/-- A JS value stored in the `alcohol` slot of an answer set: the text
parser produces strings, while the JSON fast path (and the Joi schema)
also admits booleans. -/
inductive AlcoholVal where
  | bool (b : Bool)
  | str (s : String)
deriving DecidableEq

/-- The AnswerSet record: keys are a subset of
`{age, smoker, exercise, diet, bmi, sleep, alcohol}`; an absent key is
`none`. -/
structure Answers where
  age : Option Int := none
  smoker : Option Bool := none
  exercise : Option String := none
  diet : Option String := none
  bmi : Option ℚ := none
  sleep : Option ℚ := none
  alcohol : Option AlcoholVal := none
deriving DecidableEq

/-- The value of `Object.keys(answers).length`: the number of keys
present in the answer record. -/
def Answers.keyCount (a : Answers) : Nat :=
  (if a.age.isSome then 1 else 0) +
  (if a.smoker.isSome then 1 else 0) +
  (if a.exercise.isSome then 1 else 0) +
  (if a.diet.isSome then 1 else 0) +
  (if a.bmi.isSome then 1 else 0) +
  (if a.sleep.isSome then 1 else 0) +
  (if a.alcohol.isSome then 1 else 0)

/-! ## Field extraction (ocr.js): regex scanning building blocks -/

/-- JS character class `\w`: `[A-Za-z0-9_]`. -/
def isWordChar (c : Char) : Bool := c.isAlphanum || c = '_'

/-- JS character class `\s` (on the ASCII inputs considered here). -/
def isSpaceChar (c : Char) : Bool := c.isWhitespace

/-- A character of the separator class `[:\s]`. -/
def isSepChar (c : Char) : Bool := c = ':' || isSpaceChar c

/-- A character of the class `[\w\s]`. -/
def isWordSpace (c : Char) : Bool := isWordChar c || isSpaceChar c

/-- Case-insensitive literal match: if the input starts with the
(lower-case) pattern, return the rest of the input. -/
def matchCI : List Char → List Char → Option (List Char)
  | [], rest => some rest
  | _ :: _, [] => none
  | p :: ps, c :: cs => if c.toLower = p then matchCI ps cs else none

/-- First success of `f` over a list of candidates (ordered regex
alternation / backtracking order). -/
def firstSome (f : α → Option β) : List α → Option β
  | [] => none
  | a :: as => match f a with
    | some b => some b
    | none => firstSome f as

/-- The rests of the input reachable by the greedy separator run
`[:\s]*`, longest run first — the order a backtracking regex engine
explores them. -/
def sepRests : List Char → List (List Char)
  | [] => [[]]
  | c :: cs => if isSepChar c then sepRests cs ++ [c :: cs] else [c :: cs]

/-- Terminal ordered alternation `(a1|a2|...)` at the end of a pattern:
returns the first alternative that matches case-insensitively (the
source always lower-cases such captures before use, so the canonical
lower-case alternative is returned). -/
def altCI (alts : List String) (l : List Char) : Option String :=
  firstSome (fun a => (matchCI a.data l).map fun _ => a) alts

/-- Leftmost-match scan: try the position matcher `f` at every start
position, left to right. -/
def scanSuffixes (f : List Char → Option α) : List Char → Option α
  | [] => f []
  | c :: cs => match f (c :: cs) with
    | some a => some a
    | none => scanSuffixes f cs

/-- Value of a run of decimal digits (JS `parseInt` on a `\d+`
capture). -/
def digitsToNat (ds : List Char) : Nat :=
  ds.foldl (fun n c => 10 * n + (c.toNat - 48)) 0

/-! ## Field extraction (ocr.js): the per-field detectors -/

/-- Pattern `/age[:\s]*(\d+)/i` at one position. -/
def matchAgeAt (l : List Char) : Option Int :=
  (matchCI "age".data l).bind fun r1 =>
    firstSome (fun rest =>
      let digits := rest.takeWhile Char.isDigit
      if digits.isEmpty then none else some (digitsToNat digits : Int))
      (sepRests r1)

/-- Pattern `/smok(?:er|ing)[:\s]*(yes|no|true|false)/i` at one
position; the stored value is
`['yes','true'].includes(capture.toLowerCase())`. -/
def matchSmokerAt (l : List Char) : Option Bool :=
  (matchCI "smok".data l).bind fun r1 =>
    firstSome (fun suf =>
      (matchCI suf.data r1).bind fun r2 =>
        firstSome (fun rest =>
          (altCI ["yes", "no", "true", "false"] rest).map fun v =>
            ["yes", "true"].contains v)
          (sepRests r2))
      (["er", "ing"] : List String)

/-- Pattern `/exercise[:\s]*(never|rarely|sometimes|often|daily|[\w\s]+)/i`
at one position (the last alternative is a greedy word/space run). -/
def matchExerciseAt (l : List Char) : Option String :=
  (matchCI "exercise".data l).bind fun r1 =>
    firstSome (fun rest =>
      match altCI ["never", "rarely", "sometimes", "often", "daily"] rest with
      | some v => some v
      | none =>
        let run := rest.takeWhile isWordSpace
        if run.isEmpty then none else some (String.mk run))
      (sepRests r1)

/-- The terminator `(?:\n|$|[A-Z][a-z]+:)` of the diet pattern (with the
`i` flag, both letter classes match any ASCII letter). -/
def dietTermAt : List Char → Bool
  | [] => true
  | c :: cs =>
    c = '\n' ||
    (c.isAlpha &&
      (let run := cs.takeWhile Char.isAlpha
       !run.isEmpty &&
         (match cs.drop run.length with
          | ':' :: _ => true
          | _ => false)))

/-- The lazy capture `([\w\s]+?)` of the diet pattern: the shortest
non-empty word/space run after which the terminator matches. -/
def lazyDiet : List Char → Option (List Char)
  | [] => none
  | c :: cs =>
    if isWordSpace c then
      if dietTermAt cs then some [c]
      else (lazyDiet cs).map (c :: ·)
    else none

/-- Pattern `/diet[:\s]*([\w\s]+?)(?:\n|$|[A-Z][a-z]+:)/i` at one
position. -/
def matchDietAt (l : List Char) : Option String :=
  (matchCI "diet".data l).bind fun r1 =>
    firstSome (fun rest => (lazyDiet rest).map fun cap => String.mk cap)
      (sepRests r1)

/-- A `(\d+(?:\.\d+)?)` capture read as a rational (JS `parseFloat`). -/
def matchNumAt (rest : List Char) : Option ℚ :=
  let digits := rest.takeWhile Char.isDigit
  if digits.isEmpty then none
  else
    let intPart : ℚ := (digitsToNat digits : ℚ)
    match rest.drop digits.length with
    | '.' :: r3 =>
      let fdigits := r3.takeWhile Char.isDigit
      if fdigits.isEmpty then some intPart
      else some (intPart + (digitsToNat fdigits : ℚ) / (10 : ℚ) ^ fdigits.length)
    | _ => some intPart

/-- Pattern `/bmi[:\s]*(\d+(?:\.\d+)?)/i` at one position. -/
def matchBmiAt (l : List Char) : Option ℚ :=
  (matchCI "bmi".data l).bind fun r1 => firstSome matchNumAt (sepRests r1)

/-- Pattern `/sleep[:\s]*(\d+(?:\.\d+)?)/i` at one position. -/
def matchSleepAt (l : List Char) : Option ℚ :=
  (matchCI "sleep".data l).bind fun r1 => firstSome matchNumAt (sepRests r1)

/-- Pattern `/alcohol[:\s]*(yes|no|true|false|never|rarely|sometimes|often)/i`
at one position. -/
def matchAlcoholAt (l : List Char) : Option String :=
  (matchCI "alcohol".data l).bind fun r1 =>
    firstSome
      (altCI ["yes", "no", "true", "false", "never", "rarely", "sometimes", "often"])
      (sepRests r1)

/-- Whether the trimmed text begins with an opening brace (the JSON
fast-path test of parseHealthSurvey). -/
def startsWithBrace (text : String) : Bool :=
  match text.trim.data with
  | c :: _ => c = '\x7b'
  | [] => false

/-- Function `parseHealthSurvey` (ocr.js lines 49-126).  The JSON fast
path (trimmed input starting with a brace: `JSON.parse`, falling through
to pattern matching on parse failure) is not modelled and is returned as
`none`; on every other input the seven independent case-insensitive
detectors run over the whole text. -/
def parseHealthSurvey (text : String) : Option Answers :=
  if startsWithBrace text then none
  else some {
    age := scanSuffixes matchAgeAt text.data
    smoker := scanSuffixes matchSmokerAt text.data
    exercise := (scanSuffixes matchExerciseAt text.data).map fun v => v.toLower.trim
    diet := (scanSuffixes matchDietAt text.data).map fun v => v.trim
    bmi := scanSuffixes matchBmiAt text.data
    sleep := scanSuffixes matchSleepAt text.data
    alcohol := (scanSuffixes matchAlcoholAt text.data).map fun v =>
      if ["yes", "true", "often", "sometimes"].contains v
      then AlcoholVal.str v else AlcoholVal.str "no" }

/-! ## Missing fields and confidence (ocr.js) -/

/-- The predicate of `findMissingFields` (ocr.js line 130): a required
field is missing when it is not a key of `answers`, is `undefined`, or
equals the empty string (`age` and `smoker` hold numbers/booleans,
never `''`). -/
def fieldMissing (a : Answers) : String → Bool
  | "age" => a.age.isNone
  | "smoker" => a.smoker.isNone
  | "exercise" => a.exercise.isNone || a.exercise == some ""
  | "diet" => a.diet.isNone || a.diet == some ""
  | _ => false

/-- Function `findMissingFields` (ocr.js lines 128-143): filter the
fixed required-field list by the missing predicate. -/
def findMissingFields (a : Answers) : List String :=
  ["age", "smoker", "exercise", "diet"].filter (fieldMissing a)

/-- Function `calculateConfidence` (ocr.js lines 145-170): base 0.5,
+0.5 per extracted key, -0.15 per missing required field, +0.2 for
direct text input, clamped to [0,1]. -/
def calculateConfidence (a : Answers) (missingFields : List String)
    (inputType : String) : ℚ :=
  let confidence : ℚ := 0.5
  let confidence := confidence + (a.keyCount : ℚ) * 0.5
  let confidence := confidence - (missingFields.length : ℚ) * 0.15
  let confidence := if inputType = "text" then confidence + 0.2 else confidence
  max 0 (min 1 confidence)

/-- The operation `parseFloat(x.toFixed(2))` on a nonnegative value:
round to two decimal places (half away from zero, which for nonnegative
values is `⌊100x + 1/2⌋ / 100`). -/
def round2 (q : ℚ) : ℚ := (⌊q * 100 + 1/2⌋ : ℚ) / 100

/-- The record produced by `processHealthProfile` and consumed by
`validateInput`. -/
structure ParsedData where
  answers : Answers
  missing_fields : List String
  confidence : ℚ
deriving DecidableEq

/-- Function `processHealthProfile` (ocr.js lines 6-47), after the
external OCR/text acquisition has produced `text`: parse, find missing
fields, compute the rounded confidence. -/
def processHealthProfile (text : String) (inputType : String) :
    Option ParsedData :=
  (parseHealthSurvey text).map fun answers =>
    let missingFields := findMissingFields answers
    let confidence := calculateConfidence answers missingFields inputType
    ⟨answers, missingFields, round2 confidence⟩

/-! ## Guardrail validation (guardrails.js) -/

/-- The three rejection response shapes of guardrails.js, each tagged by
its `status` string and carrying the data fields the source attaches
(constant `reason` strings omitted). -/
inductive ValidationResponse where
  /-- Shape `{status: 'incomplete_profile', reason, missing_fields, confidence}`. -/
  | incompleteProfile (missing_fields : List String) (confidence : ℚ)
  /-- Shape `{status: 'low_confidence', reason, confidence}`. -/
  | lowConfidence (confidence : ℚ)
  /-- Shape `{status: 'invalid_data', reason, field}`. -/
  | invalidData (field : String)
deriving DecidableEq

/-- The return value of `validateInput`: `{isValid, response?}`. -/
structure ValidationOutcome where
  isValid : Bool
  response : Option ValidationResponse
deriving DecidableEq

/-- Joi constraint for `age`: `Joi.number().integer().min(1).max(120)`
(integrality is carried by the `Int` type). -/
def ageValid : Option Int → Bool
  | none => true
  | some n => decide (1 ≤ n) && decide (n ≤ 120)

/-- Joi constraint for `smoker`: `Joi.boolean()` accepts every
boolean. -/
def smokerValid : Option Bool → Bool
  | _ => true

/-- Joi constraint for `exercise`:
`Joi.string().valid('never','rarely','sometimes','often','daily')`. -/
def exerciseValid : Option String → Bool
  | none => true
  | some s => ["never", "rarely", "sometimes", "often", "daily"].contains s

/-- Joi constraint for `diet`: `Joi.string().min(1)`. -/
def dietValid : Option String → Bool
  | none => true
  | some s => decide (1 ≤ s.length)

/-- Joi constraint for `bmi`:
`Joi.number().min(10).max(50).optional()`. -/
def bmiValid : Option ℚ → Bool
  | none => true
  | some b => decide (10 ≤ b) && decide (b ≤ 50)

/-- Joi constraint for `sleep`:
`Joi.number().min(0).max(24).optional()`. -/
def sleepValid : Option ℚ → Bool
  | none => true
  | some s => decide (0 ≤ s) && decide (s ≤ 24)

/-- Joi constraint for `alcohol`: boolean, or one of
`{never, rarely, sometimes, often, no}`. -/
def alcoholValid : Option AlcoholVal → Bool
  | none => true
  | some (.bool _) => true
  | some (.str s) => ["never", "rarely", "sometimes", "often", "no"].contains s

/-- The call `schema.validate(parsedData.answers)`: Joi reports the
first violation in schema-key order (age, smoker, exercise, diet, bmi,
sleep, alcohol); `none` means the answer set passes the schema. -/
def joiFirstError (a : Answers) : Option String :=
  if !ageValid a.age then some "age"
  else if !smokerValid a.smoker then some "smoker"
  else if !exerciseValid a.exercise then some "exercise"
  else if !dietValid a.diet then some "diet"
  else if !bmiValid a.bmi then some "bmi"
  else if !sleepValid a.sleep then some "sleep"
  else if !alcoholValid a.alcohol then some "alcohol"
  else none

/-- Function `validateInput` (guardrails.js lines 6-95): completeness
gate, then confidence gate, then Joi schema gate; each is a hard
stop. -/
def validateInput (p : ParsedData) : ValidationOutcome :=
  let totalRequiredFields : ℚ := 4
  let missingCount : ℚ := p.missing_fields.length
  let missingPercentage := missingCount / totalRequiredFields * 100
  if missingPercentage > 50 then
    ⟨false, some (.incompleteProfile p.missing_fields p.confidence)⟩
  else if p.confidence < 0.3 then
    ⟨false, some (.lowConfidence p.confidence)⟩
  else
    match joiFirstError p.answers with
    | some f => ⟨false, some (.invalidData f)⟩
    | none => ⟨true, none⟩

/-- Whether a validation outcome is the `low_confidence` rejection. -/
def isLowConfidenceRejection (o : ValidationOutcome) : Bool :=
  match o.response with
  | some (.lowConfidence _) => true
  | _ => false

/-! ## Factor extraction (factors.js) -/

/-- True when `needle` is a prefix of `hay` (character lists). -/
def charsStartsWith : List Char → List Char → Bool
  | [], _ => true
  | _ :: _, [] => false
  | c :: cs, d :: ds => c = d && charsStartsWith cs ds

/-- True when `needle` occurs somewhere in `hay`. -/
def charsHasSub (needle : List Char) : List Char → Bool
  | [] => needle.isEmpty
  | d :: ds => charsStartsWith needle (d :: ds) || charsHasSub needle ds

/-- JS `hay.includes(needle)`. -/
def strIncludes (hay needle : String) : Bool := charsHasSub needle.data hay.data

/-- The result of `extractFactors`: the detected factor tags in rule
order and the factor-stage confidence. -/
structure FactorResult where
  factors : List String
  confidence : ℚ
deriving DecidableEq

/-- Function `extractFactors` (factors.js lines 5-143).  One independent
boolean rule per risk dimension, in the fixed source order; the
factor-stage confidence starts at 0.9 and drops by 0.2 when fewer than 3
keys are present.  Returns `none` exactly where the source would throw:
a truthy boolean in `alcohol` reaches `answers.alcohol.toLowerCase()`, a
TypeError (a falsy one short-circuits the `&&`). -/
def extractFactors (answers : Answers) : Option FactorResult :=
  let ageFactors := match answers.age with
    | some n => if 65 ≤ n then ["advanced age"] else []
    | none => []
  let smokingFactors := if answers.smoker == some true then ["smoking"] else []
  let exerciseFactors := match answers.exercise with
    | some s =>
      if s ≠ "" then
        if ["never", "rarely"].contains s.toLower then ["low exercise"] else []
      else []
    | none => []
  let dietFactors := match answers.diet with
    | some s =>
      if s ≠ "" then
        let d := s.toLower
        (if strIncludes d "high sugar" || strIncludes d "fast food" ||
            strIncludes d "processed" then ["poor diet"] else []) ++
        (if strIncludes d "high fat" || strIncludes d "fried"
         then ["high fat intake"] else [])
      else []
    | none => []
  let bmiFactors := match answers.bmi with
    | some b =>
      if b ≠ 0 then
        if 30 ≤ b then ["obesity"]
        else if 25 ≤ b then ["overweight"]
        else if b < 18.5 then ["underweight"]
        else []
      else []
    | none => []
  let sleepFactors := match answers.sleep with
    | some s =>
      if s ≠ 0 then
        if s < 6 || 9 < s then ["poor sleep"] else []
      else []
    | none => []
  let alcoholFactorsOpt : Option (List String) := match answers.alcohol with
    | none => some []
    | some (.bool false) => some []
    | some (.bool true) => none
    | some (.str s) =>
      if s ≠ "" then
        some (if ["often", "sometimes"].contains s.toLower
              then ["alcohol consumption"] else [])
      else some []
  alcoholFactorsOpt.map fun alcoholFactors =>
    let factors := ageFactors ++ smokingFactors ++ exerciseFactors ++
      dietFactors ++ bmiFactors ++ sleepFactors ++ alcoholFactors
    let confidence : ℚ := 0.9
    let confidence := if answers.keyCount < 3 then confidence - 0.2 else confidence
    ⟨factors, round2 confidence⟩

/-! ## Risk scoring (risk.js) -/

/-- The result of `calculateRisk`. -/
structure RiskResult where
  risk_level : String
  score : Int
  rationale : List String
deriving DecidableEq

/-- The `riskWeights` table with the `|| 5` defensive default
(risk.js lines 18-34): `riskWeights[factor] || 5`. -/
def weightOf : String → Int
  | "smoking" => 25
  | "poor diet" => 15
  | "low exercise" => 15
  | "obesity" => 20
  | "overweight" => 10
  | "underweight" => 12
  | "advanced age" => 15
  | "poor sleep" => 10
  | "high fat intake" => 12
  | "alcohol consumption" => 8
  | _ => 5

/-- The age adjustment (risk.js lines 50-65): applied when `answers.age`
is truthy (present and nonzero) and greater than 50:
`Math.floor((age - 50) / 5) * 2`. -/
def ageBonus (answers : Answers) : Int :=
  match answers.age with
  | none => 0
  | some age =>
    if age ≠ 0 then
      if 50 < age then ⌊((age : ℚ) - 50) / 5⌋ * 2 else 0
    else 0

/-- Function `calculateRisk` (risk.js lines 6-112): weighted factor sum,
age escalator, clamp to [0,100], banded risk level, rationale = first 3
factors in detection order. -/
def calculateRisk (factors : List String) (answers : Answers) : RiskResult :=
  let score : Int := factors.foldl (fun s f => s + weightOf f) 0
  let score := score + ageBonus answers
  let score := min 100 (max 0 score)
  let riskLevel := if score ≤ 30 then "low"
    else if score ≤ 60 then "medium"
    else "high"
  ⟨riskLevel, score, factors.take 3⟩

/-! ## Recommendations (recommendations.js) -/

/-- The result of the recommendation step; `source` is `"static"` for
the fallback strategy. -/
structure RecommendationResult where
  risk_level : String
  factors : List String
  recommendations : List String
  source : String
deriving DecidableEq

/-- The `factorRecommendations` table (recommendations.js lines
98-109); the JS truthiness test `if (factorRecommendations[factor])`
is a lookup that skips absent tags. -/
def factorRecommendation : String → Option String
  | "smoking" => some "Quit smoking with professional support"
  | "poor diet" => some "Reduce sugar and increase vegetables"
  | "low exercise" => some "Walk 30 minutes daily"
  | "obesity" => some "Consult healthcare provider for weight management"
  | "overweight" => some "Aim for gradual weight loss through diet and exercise"
  | "underweight" => some "Increase calorie intake with nutrient-dense foods"
  | "advanced age" => some "Regular health checkups and screenings"
  | "poor sleep" => some "Maintain consistent sleep schedule (7-8 hours)"
  | "high fat intake" => some "Choose lean proteins and healthy fats"
  | "alcohol consumption" => some "Limit alcohol intake to recommended guidelines"
  | _ => none

/-- Function `generateStaticRecommendations` (recommendations.js lines
88-191): factor-specific items, then the high-risk healthcare item, then
the medium/high stress item, then the hydration filler when fewer than 3
items exist, truncated to 5. -/
def generateStaticRecommendations (riskLevel : String)
    (factors : List String) : RecommendationResult :=
  let recommendations := factors.filterMap factorRecommendation
  let recommendations :=
    if riskLevel = "high" &&
        !(recommendations.any fun rec => strIncludes rec "healthcare") then
      recommendations ++ ["Consult healthcare provider for comprehensive assessment"]
    else recommendations
  let recommendations :=
    if (riskLevel = "medium" || riskLevel = "high") &&
        !(recommendations.any fun rec => strIncludes rec "stress") then
      recommendations ++ ["Practice stress management techniques"]
    else recommendations
  let recommendations :=
    if recommendations.length < 3 then
      recommendations ++ ["Stay hydrated with 8 glasses of water daily"]
    else recommendations
  ⟨riskLevel, factors, recommendations.take 5, "static"⟩

/-! ## Concrete sample data from the specification -/

/-- The sample survey text of the specification round-trip property. -/
def sampleText : String := "Age: 42\nSmoker: yes\nExercise: rarely\nDiet: high sugar"

/-- The answer set the sample text is specified to parse to. -/
def sampleAnswers : Answers :=
  ⟨some 42, some true, some "rarely", some "high sugar", none, none, none⟩

/-- The high-risk answer set of the specification. -/
def highRiskAnswers : Answers :=
  ⟨some 68, some true, some "never",
   some "high sugar processed foods and fried meals", some 34.2, some 4,
   some (.str "often")⟩

/-- The factor tags detected on `highRiskAnswers`, in rule order. -/
def highRiskFactors : List String :=
  ["advanced age", "smoking", "low exercise", "poor diet", "high fat intake",
   "obesity", "poor sleep", "alcohol consumption"]

/-- The low-risk answer set of the specification round trip. -/
def balancedAnswers : Answers :=
  ⟨some 35, some false, some "daily", some "balanced", some 24.2, some 7.5,
   some (.str "rarely")⟩

/-- An answer record with no keys at all. -/
def emptyAnswers : Answers := ⟨none, none, none, none, none, none, none⟩

/-! ## Helper lemmas -/

/-- Every weight in the risk table, including the default, is at
least 5. -/
theorem weightOf_ge_five (f : String) : 5 ≤ weightOf f := by
  unfold weightOf
  split <;> norm_num

/-- A missing-field list of at most two entries passes the completeness
gate. -/
theorem completeness_gate_passes (p : ParsedData)
    (hm : p.missing_fields.length ≤ 2) :
    ¬ ((p.missing_fields.length : ℚ) / 4 * 100 > 50) := by
  have h2 : (p.missing_fields.length : ℚ) ≤ 2 := by exact_mod_cast hm
  push_neg
  linarith

/-- Each of the four required fields is either a present key or a
missing field, so presence plus missing count is at least 4. -/
theorem keyCount_add_missing (a : Answers) :
    4 ≤ a.keyCount + (findMissingFields a).length := by
  obtain ⟨age, smoker, exercise, diet, bmi, sleep, alcohol⟩ := a
  cases age <;> cases smoker <;> cases exercise <;> cases diet <;>
    simp [Answers.keyCount, findMissingFields, fieldMissing, List.filter_cons,
      List.filter_nil] <;>
    split_ifs <;> simp_all

/-- Clamping a value that is at least 1 to [0,1] yields exactly 1. -/
theorem clamp01_eq_one (c : ℚ) (h : 1 ≤ c) : max 0 (min 1 c) = 1 := by
  rw [min_eq_left h, max_eq_right (by norm_num : (0:ℚ) ≤ 1)]

/-- With at most 2 missing required fields, at least 2 keys are present
and the extraction-stage confidence saturates at 1. -/
theorem calculateConfidence_eq_one (a : Answers) (t : String)
    (h : (findMissingFields a).length ≤ 2) :
    calculateConfidence a (findMissingFields a) t = 1 := by
  have hk : 4 ≤ a.keyCount + (findMissingFields a).length := keyCount_add_missing a
  have hk2 : 2 ≤ a.keyCount := by omega
  have hkq : (2 : ℚ) ≤ (a.keyCount : ℚ) := by exact_mod_cast hk2
  have hmq : ((findMissingFields a).length : ℚ) ≤ 2 := by exact_mod_cast h
  simp only [calculateConfidence]
  split_ifs with ht
  · rw [clamp01_eq_one _ (by linarith)]
  · rw [clamp01_eq_one _ (by linarith)]

/-- A parsed record whose confidence is not below 0.3 can never produce
the low-confidence rejection, whatever the other gates do. -/
theorem no_low_conf_rejection (p : ParsedData) (h : ¬ (p.confidence < 0.3)) :
    isLowConfidenceRejection (validateInput p) = false := by
  simp only [validateInput, isLowConfidenceRejection]
  split_ifs with h1
  · rfl
  · cases hj : joiFirstError p.answers <;> simp [hj]

/-- Rounding 1 to two decimals is 1. -/
theorem round2_one : round2 1 = 1 := by
  unfold round2
  norm_num

/-- A record satisfying all three gates is accepted: completeness at
most 2 missing, confidence at least 0.3, and every schema constraint
met. -/
theorem validateInput_accepts_aux (p : ParsedData)
    (hm : p.missing_fields.length ≤ 2)
    (hc : 0.3 ≤ p.confidence)
    (h1 : ageValid p.answers.age = true)
    (h2 : smokerValid p.answers.smoker = true)
    (h3 : exerciseValid p.answers.exercise = true)
    (h4 : dietValid p.answers.diet = true)
    (h5 : bmiValid p.answers.bmi = true)
    (h6 : sleepValid p.answers.sleep = true)
    (h7 : alcoholValid p.answers.alcohol = true) :
    validateInput p = ⟨true, none⟩ := by
  have hjoi : joiFirstError p.answers = none := by
    simp [joiFirstError, h1, h2, h3, h4, h5, h6, h7]
  simp only [validateInput, hjoi]
  rw [if_neg (completeness_gate_passes p hm), if_neg (not_lt.mpr hc)]

/-! ## Claim theorems -/

/-- C1 (amended): for every risk level and every list of factor tags,
the static recommendation strategy returns a recommendations list whose
length is at least 1 and at most 5.  (The lower bound 3 claimed by the
specification fails; see the counterexample.) -/
theorem staticRecommendations_length_one_to_five (riskLevel : String)
    (factors : List String) :
    1 ≤ (generateStaticRecommendations riskLevel factors).recommendations.length ∧
    (generateStaticRecommendations riskLevel factors).recommendations.length ≤ 5 := by
  simp only [generateStaticRecommendations]
  split_ifs <;>
    simp only [List.length_take, List.length_append, List.length_cons,
      List.length_nil] at * <;> omega

/-- C1 counterexample: with risk level `low` and no factor tags the
static strategy returns only the single hydration filler item, so the
claimed lower bound 3 is violated. -/
theorem staticRecommendations_low_empty_single_item :
    generateStaticRecommendations "low" [] =
      ⟨"low", [], ["Stay hydrated with 8 glasses of water daily"], "static"⟩ ∧
    (generateStaticRecommendations "low" []).recommendations.length = 1 := by
  constructor <;> decide

/-- C2: whenever more than 2 of the 4 required fields are missing,
validateInput rejects with status `incomplete_profile`, carrying the
missing-field list and the current confidence, regardless of the
confidence value and of the answers. -/
theorem validateInput_incomplete_profile_when_missing_over_half
    (p : ParsedData) (h : 2 < p.missing_fields.length) :
    validateInput p =
      ⟨false, some (.incompleteProfile p.missing_fields p.confidence)⟩ := by
  have h50 : (p.missing_fields.length : ℚ) / 4 * 100 > 50 := by
    have h3 : (3 : ℚ) ≤ (p.missing_fields.length : ℚ) := by exact_mod_cast h
    linarith
  simp only [validateInput]
  rw [if_pos h50]

/-- C2 witness at a concrete input: three missing fields always yield
the incomplete-profile rejection. -/
theorem validateInput_incomplete_profile_when_missing_over_half_witness :
    2 < (["smoker", "exercise", "diet"] : List String).length ∧
    validateInput ⟨⟨some 150, none, none, none, none, none, none⟩,
        ["smoker", "exercise", "diet"], 3/4⟩ =
      ⟨false, some (.incompleteProfile ["smoker", "exercise", "diet"] (3/4))⟩ :=
  ⟨by decide,
   validateInput_incomplete_profile_when_missing_over_half
     ⟨⟨some 150, none, none, none, none, none, none⟩,
      ["smoker", "exercise", "diet"], 3/4⟩ (by decide)⟩

/-- C3: a parsed record with an empty missing-field list, confidence at
least 0.3, and an answers record satisfying every field-level schema
constraint is accepted by validateInput with no rejection payload. -/
theorem validateInput_accepts_complete_valid_profile (p : ParsedData)
    (hm : p.missing_fields = [])
    (hc : 0.3 ≤ p.confidence)
    (h1 : ageValid p.answers.age = true)
    (h2 : smokerValid p.answers.smoker = true)
    (h3 : exerciseValid p.answers.exercise = true)
    (h4 : dietValid p.answers.diet = true)
    (h5 : bmiValid p.answers.bmi = true)
    (h6 : sleepValid p.answers.sleep = true)
    (h7 : alcoholValid p.answers.alcohol = true) :
    validateInput p = ⟨true, none⟩ :=
  validateInput_accepts_aux p (by rw [hm]; decide) hc h1 h2 h3 h4 h5 h6 h7

/-- C3 witness at the specification's balanced answer set. -/
theorem validateInput_accepts_complete_valid_profile_witness :
    (0.3 : ℚ) ≤ 1 ∧
    validateInput ⟨balancedAnswers, [], 1⟩ = ⟨true, none⟩ :=
  ⟨by norm_num,
   validateInput_accepts_complete_valid_profile ⟨balancedAnswers, [], 1⟩
     rfl (by norm_num) (by decide) (by decide) (by decide) (by decide)
     (by with_unfolding_all decide) (by with_unfolding_all decide)
     (by decide)⟩

/-- C4: appending a factor tag never lowers the risk score returned by
calculateRisk (monotonicity through the final clamp). -/
theorem calculateRisk_score_monotone_in_factors (factors : List String)
    (answers : Answers) (t : String) :
    (calculateRisk factors answers).score ≤
      (calculateRisk (factors ++ [t]) answers).score := by
  have hw := weightOf_ge_five t
  simp only [calculateRisk, List.foldl_append, List.foldl_cons, List.foldl_nil]
  exact min_le_min le_rfl (max_le_max le_rfl (by linarith))

/-- C5: for every factor list and answer record, the score of
calculateRisk is an integer in [0,100] and the risk level is the pure
step function of the score: `low` iff score ≤ 30, `medium` iff
31 ≤ score ≤ 60, `high` iff score ≥ 61. -/
theorem calculateRisk_score_bounds_and_level_bands (factors : List String)
    (answers : Answers) :
    (0 ≤ (calculateRisk factors answers).score ∧
      (calculateRisk factors answers).score ≤ 100) ∧
    ((calculateRisk factors answers).risk_level = "low" ↔
      (calculateRisk factors answers).score ≤ 30) ∧
    ((calculateRisk factors answers).risk_level = "medium" ↔
      31 ≤ (calculateRisk factors answers).score ∧
        (calculateRisk factors answers).score ≤ 60) ∧
    ((calculateRisk factors answers).risk_level = "high" ↔
      61 ≤ (calculateRisk factors answers).score) := by
  simp only [calculateRisk]
  generalize (List.foldl (fun s f => s + weightOf f) 0 factors + ageBonus answers) = b
  have hb0 : 0 ≤ min 100 (max 0 b) := le_min (by norm_num) (le_max_left 0 b)
  have hb1 : min 100 (max 0 b) ≤ 100 := min_le_left _ _
  generalize hs : min 100 (max 0 b) = s at hb0 hb1 ⊢
  refine ⟨⟨hb0, hb1⟩, ?_⟩
  split_ifs with h1 h2 <;> refine ⟨?_, ?_, ?_⟩ <;> simp <;> omega

/-- C6: on the high-risk answer set of the specification,
extractFactors detects exactly the eight claimed factor tags in rule
order, and calculateRisk on those factors clamps the score to exactly
100 with risk level `high`. -/
theorem extractFactors_calculateRisk_high_risk_sample :
    extractFactors highRiskAnswers = some ⟨highRiskFactors, 0.9⟩ ∧
    calculateRisk highRiskFactors highRiskAnswers =
      ⟨"high", 100, ["advanced age", "smoking", "low exercise"]⟩ := by
  constructor
  · with_unfolding_all decide
  · with_unfolding_all decide

/-- C7 (amended): a parsed record whose answers contain age 150 is
rejected by validateInput with status `invalid_data` naming the `age`
field, provided the earlier gates pass (at most 2 missing fields and
confidence at least 0.3).  As universally stated over all parsedData the
claim fails; see the counterexample. -/
theorem validateInput_age150_invalid_data_when_gates_pass (p : ParsedData)
    (hage : p.answers.age = some 150)
    (hm : p.missing_fields.length ≤ 2)
    (hc : 0.3 ≤ p.confidence) :
    validateInput p = ⟨false, some (.invalidData "age")⟩ := by
  have hjoi : joiFirstError p.answers = some "age" := by
    simp [joiFirstError, ageValid, hage]
  simp only [validateInput, hjoi]
  rw [if_neg (completeness_gate_passes p hm), if_neg (not_lt.mpr hc)]

/-- C7 counterexample: a parsed record containing age 150 whose
missing-field list has three entries is rejected by the completeness
gate with status `incomplete_profile`, not `invalid_data` with field
`age`. -/
theorem validateInput_age150_counterexample :
    (⟨⟨some 150, none, none, none, none, none, none⟩,
        ["smoker", "exercise", "diet"], 3/4⟩ : ParsedData).answers.age =
      some 150 ∧
    validateInput ⟨⟨some 150, none, none, none, none, none, none⟩,
        ["smoker", "exercise", "diet"], 3/4⟩ ≠
      ⟨false, some (.invalidData "age")⟩ ∧
    validateInput ⟨⟨some 150, none, none, none, none, none, none⟩,
        ["smoker", "exercise", "diet"], 3/4⟩ =
      ⟨false, some (.incompleteProfile ["smoker", "exercise", "diet"] (3/4))⟩ := by
  refine ⟨rfl, ?_, ?_⟩ <;> with_unfolding_all decide

/-- C7 witness at a concrete input passing the earlier gates. -/
theorem validateInput_age150_invalid_data_when_gates_pass_witness :
    (⟨⟨some 150, some true, some "daily", some "balanced", none, none, none⟩,
        [], 1⟩ : ParsedData).answers.age = some 150 ∧
    (0.3 : ℚ) ≤ 1 ∧
    validateInput ⟨⟨some 150, some true, some "daily", some "balanced",
        none, none, none⟩, [], 1⟩ =
      ⟨false, some (.invalidData "age")⟩ :=
  ⟨rfl, by norm_num,
   validateInput_age150_invalid_data_when_gates_pass
     ⟨⟨some 150, some true, some "daily", some "balanced", none, none, none⟩,
      [], 1⟩ rfl (by decide) (by norm_num)⟩

/-- C8: the sample text parses to exactly the claimed answer set, on
which findMissingFields returns the empty list. -/
theorem parseHealthSurvey_sample_text :
    parseHealthSurvey sampleText = some sampleAnswers ∧
    findMissingFields sampleAnswers = [] := by
  constructor
  · with_unfolding_all decide
  · decide

/-- C9: on every output of processHealthProfile that passes the
completeness gate (at most 2 missing required fields), the
extraction-stage confidence computed by calculateConfidence equals
exactly 1, the stored confidence equals 1, and the low-confidence
rejection branch of validateInput is unreachable. -/
theorem lowConfidence_rejection_unreachable (text inputType : String)
    (pd : ParsedData)
    (hpd : processHealthProfile text inputType = some pd)
    (hgate : pd.missing_fields.length ≤ 2) :
    calculateConfidence pd.answers pd.missing_fields inputType = 1 ∧
    pd.confidence = 1 ∧
    isLowConfidenceRejection (validateInput pd) = false := by
  unfold processHealthProfile at hpd
  cases hp : parseHealthSurvey text with
  | none => rw [hp] at hpd; simp at hpd
  | some a =>
    rw [hp] at hpd
    have hpd2 : pd = ⟨a, findMissingFields a,
        round2 (calculateConfidence a (findMissingFields a) inputType)⟩ := by
      simpa using hpd.symm
    subst hpd2
    dsimp only at hgate ⊢
    have h1 := calculateConfidence_eq_one a inputType hgate
    refine ⟨h1, ?_, ?_⟩
    · rw [h1, round2_one]
    · apply no_low_conf_rejection
      dsimp only
      rw [h1, round2_one]
      norm_num

/-- C9 witness at the sample text processed as direct text input. -/
theorem lowConfidence_rejection_unreachable_witness :
    processHealthProfile sampleText "text" = some ⟨sampleAnswers, [], 1⟩ ∧
    calculateConfidence sampleAnswers [] "text" = 1 ∧
    isLowConfidenceRejection (validateInput ⟨sampleAnswers, [], 1⟩) = false :=
  ⟨by with_unfolding_all decide,
   (lowConfidence_rejection_unreachable sampleText "text" ⟨sampleAnswers, [], 1⟩
     (by with_unfolding_all decide) (by decide)).1,
   (lowConfidence_rejection_unreachable sampleText "text" ⟨sampleAnswers, [], 1⟩
     (by with_unfolding_all decide) (by decide)).2.2⟩

/-- C10: the schema gate requires no field to be present: a parsed
record with exactly 1 or 2 missing required fields, confidence at least
0.3, and every present field schema-valid is accepted by validateInput
(in particular an entirely empty answers record). -/
theorem validateInput_accepts_partial_profile (p : ParsedData)
    (hm : p.missing_fields.length = 1 ∨ p.missing_fields.length = 2)
    (hc : 0.3 ≤ p.confidence)
    (h1 : ageValid p.answers.age = true)
    (h2 : smokerValid p.answers.smoker = true)
    (h3 : exerciseValid p.answers.exercise = true)
    (h4 : dietValid p.answers.diet = true)
    (h5 : bmiValid p.answers.bmi = true)
    (h6 : sleepValid p.answers.sleep = true)
    (h7 : alcoholValid p.answers.alcohol = true) :
    validateInput p = ⟨true, none⟩ :=
  validateInput_accepts_aux p (by omega) hc h1 h2 h3 h4 h5 h6 h7

/-- C10 witness: an entirely empty answers record with a
two-element missing-field list is accepted. -/
theorem validateInput_accepts_partial_profile_witness :
    ((["age", "smoker"] : List String).length = 1 ∨
      (["age", "smoker"] : List String).length = 2) ∧
    (0.3 : ℚ) ≤ 1/2 ∧
    validateInput ⟨emptyAnswers, ["age", "smoker"], 1/2⟩ = ⟨true, none⟩ :=
  ⟨by decide, by norm_num,
   validateInput_accepts_partial_profile ⟨emptyAnswers, ["age", "smoker"], 1/2⟩
     (by decide) (by norm_num) rfl rfl rfl rfl rfl rfl rfl⟩

end HealthProfiler
